import Mathlib

/-!
# Verification of the preemptible-instance watchdog

Shallow embedding of `examples/preemptible_watchdog.py`: the target selector
(`get_instances_from_config`, `get_instances_from_yc_folder`), the status
aggregator (`prep_and_log_statistics`), the remediation dispatcher
(`start_instance`, `prepare_start_tasks`) and the reconciliation loop (`main`).

Python dicts are modelled as insertion-ordered association lists
(`List (String × α)`): assignment to an existing key updates the value in
place, assignment to a fresh key appends at the end, and iteration follows
this order — exactly CPython's dict semantics.  Serialisation of a dict with
`str()` is modelled character-faithfully (`pyStrDict`).  The cloud API client
(external `yandex_cloud_client` library) is modelled as a `Gateway` record of
response functions.  The asyncio default-event-loop lifecycle that `main`
relies on (`get_event_loop` returns the thread's stored loop even after it
has been closed, and `run_until_complete`/task creation on a closed loop
raises `RuntimeError("Event loop is closed")`) is modelled by the
`eventLoopClosed` flag of the loop state.
-/

namespace Watchdog

/-- An instance snapshot as the core sees it.  `status` is the status string
(`"RUNNING"`, `"STOPPED"`, ...); `labels` is the label mapping. -/
structure Instance where
  id : String
  name : String
  status : String
  preemptible : Bool
  labels : List (String × String)
deriving Repr, DecidableEq

/-- Modelled from the spec: `Instance.stopped` of the external cloud client
library (not part of this repository) — true iff the instance status is
`STOPPED` (§3: status enum `RUNNING`, `STOPPED`, plus transitional states). -/
def Instance.stopped (i : Instance) : Bool :=
  i.status == "STOPPED"

/-- Modelled from the spec: the Instance Gateway (§6), the boundary to the
external cloud API client.  `fetch` is `compute.instance(id)` (may raise),
`listInFolder` is `compute.instances_in_folder(folder_id)`, and
`startResult` gives the outcome of `instance.start(...)` for the instance
with the given id (`Except.error` models a raised `YandexCloudError`). -/
structure Gateway where
  fetch : String → Except String Instance
  listInFolder : String → List Instance
  startResult : String → Except String Unit

/-- Python dict assignment `d[k] = v`: update in place if the key exists
(keeping its position), otherwise append at the end. -/
def dictInsert {α : Type} (k : String) (v : α) : List (String × α) → List (String × α)
  | [] => [(k, v)]
  | (k', v') :: rest =>
      if k' == k then (k, v) :: rest else (k', v') :: dictInsert k v rest

/-- Python `d.get(k, default)` on an association-list dict. -/
def dictGetD {α : Type} (d : List (String × α)) (k : String) (default : α) : α :=
  match d.find? (fun p => p.1 == k) with
  | some p => p.2
  | none => default

/-- Python `dict(pairs)`: left-to-right insertion. -/
def pyDictOfPairs {α : Type} (l : List (String × α)) : List (String × α) :=
  l.foldl (fun d p => dictInsert p.1 p.2 d) []

/-- Python truthiness of an optional string config value: `None` and the
empty string are falsy. -/
def strTruthy : Option String → Bool
  | none => false
  | some s => !(s == "")

/-- The loop body of `get_instances_from_config` with CPython `for`/`pop`
semantics: `for i, instance_id in enumerate(config.instances)` iterates a
cursor `i` over the *live* list, and `config.instances.pop(i)` removes the
element at the cursor, so the element that shifts into position `i` is
skipped.  Returns the mutated working list together with the accumulated
`instances` dict. -/
def getFromConfigGo (gw : Gateway) (lst : List String) (i : Nat)
    (acc : List (String × Instance)) : List String × List (String × Instance) :=
  if h : i < lst.length then
    match gw.fetch (lst.get ⟨i, h⟩) with
    | Except.ok inst =>
        if inst.preemptible then
          getFromConfigGo gw lst (i + 1) (dictInsert inst.id inst acc)
        else
          getFromConfigGo gw (lst.eraseIdx i) (i + 1) acc
    | Except.error _ => getFromConfigGo gw (lst.eraseIdx i) (i + 1) acc
  else
    (lst, acc)
termination_by lst.length - i
decreasing_by
  all_goals first
    | omega
    | (simp only [List.length_eraseIdx, h, if_true]; omega)

/-- `get_instances_from_config()`: validate each configured identifier through
the gateway; keep preemptible instances keyed by their own id, and pop failed
or non-preemptible identifiers from the working list while iterating.
Returns the mutated working list and the resolved TargetSet. -/
def get_instances_from_config (gw : Gateway) (instances : List String) :
    List String × List (String × Instance) :=
  getFromConfigGo gw instances 0 []

/-- The secondary label filter of `get_instances_from_yc_folder`:
`label_go_value` (truthy) wins; otherwise a truthy `label_no_go_value`
excludes matches; otherwise no filter.  `i.labels.get(label_name)` yields
`None` for a missing key, and `None == value` is `False` in Python. -/
def applyLabelFilter (labelName : String) (goValue noGoValue : Option String)
    (l : List Instance) : List Instance :=
  if strTruthy goValue then
    l.filter (fun i => (i.labels.lookup labelName) == goValue)
  else if strTruthy noGoValue then
    l.filter (fun i => !((i.labels.lookup labelName) == noGoValue))
  else
    l

/-- `get_instances_from_yc_folder()`: list the folder, keep preemptible
instances, apply the go/no-go label filter, and build the dict keyed by
instance id. -/
def get_instances_from_yc_folder (gw : Gateway) (folderId labelName : String)
    (goValue noGoValue : Option String) : List (String × Instance) :=
  pyDictOfPairs
    ((applyLabelFilter labelName goValue noGoValue
        ((gw.listInFolder folderId).filter (fun i => i.preemptible))).map
      (fun i => (i.id, i)))

/-- The status histogram built by `prep_and_log_statistics`: iterate the
TargetSet's values in dict order and do
`instances_dict[i.status] = instances_dict.get(i.status, 0) + 1`. -/
def buildStatusDict (insts : List Instance) : List (String × Nat) :=
  insts.foldl (fun d i => dictInsert i.status (dictGetD d i.status 0 + 1) d) []

/-- Python `str()` of one dict entry of a `str -> int` dict: `'KEY': n`. -/
def pyStrEntry (p : String × Nat) : String :=
  "'" ++ p.1 ++ "': " ++ toString p.2

/-- Python `str()` of a `str -> int` dict: entries in insertion order,
joined by `", "`, wrapped in braces. -/
def pyStrDict (d : List (String × Nat)) : String :=
  "\x7b" ++ String.intercalate ", " (d.map pyStrEntry) ++ "\x7d"

/-- `prep_and_log_statistics(instances)` as a state transformer on the
process-wide `last_status_stats` string (initialised to `""`).  Returns
whether a `VM statistics` log line was emitted, and the new retained state. -/
def prep_and_log_statistics (insts : List Instance) (lastStatusStats : String) :
    Bool × String :=
  let newStatusStats := pyStrDict (buildStatusDict insts)
  if newStatusStats != lastStatusStats then
    (true, newStatusStats)
  else
    (false, lastStatusStats)

/-- Per-instance remediation result (§3 of the design). -/
inductive RemediationOutcome where
  | Skipped : RemediationOutcome
  | Started : RemediationOutcome
  | Failed : String → RemediationOutcome
deriving Repr, DecidableEq

/-- `start_instance(instance)`: skip unless stopped; otherwise issue one start
command through the gateway, catching a gateway error.  The second component
counts the start commands issued (no retry happens inside the call). -/
def start_instance (gw : Gateway) (inst : Instance) : RemediationOutcome × Nat :=
  if inst.stopped then
    match gw.startResult inst.id with
    | Except.ok _ => (RemediationOutcome.Started, 1)
    | Except.error err => (RemediationOutcome.Failed err, 1)
  else
    (RemediationOutcome.Skipped, 0)

/-- `prepare_start_tasks(instances)` + `asyncio.gather`: one independent
`start_instance` task per instance, all outcomes collected at the barrier. -/
def prepare_start_tasks (gw : Gateway) (insts : List Instance) :
    List (RemediationOutcome × Nat) :=
  insts.map (start_instance gw)

/-- The selection strategy, decided once at startup (`main` picks
`get_instances_from_config` iff `config.instances` is non-empty). -/
inductive Strategy where
  | explicitList : Strategy
  | labelQuery : String → String → Option String → Option String → Strategy
deriving Repr, DecidableEq

/-- One call of `get_instances_func()`: returns the (possibly mutated)
working list and the resolved TargetSet. -/
def resolve (strat : Strategy) (gw : Gateway) (workingList : List String) :
    List String × List (String × Instance) :=
  match strat with
  | Strategy.explicitList => get_instances_from_config gw workingList
  | Strategy.labelQuery folderId labelName go noGo =>
      (workingList, get_instances_from_yc_folder gw folderId labelName go noGo)

/-- The loop-carried state of `main`'s `while True` body: the working
identifier list, the retained `last_status_stats` string, whether the asyncio
default event loop has been closed by a previous round's `loop.close()`, and
two observation counters (statistics log lines emitted, start commands
issued). -/
structure LoopState where
  workingList : List String
  lastStatusStats : String
  eventLoopClosed : Bool
  statLogs : Nat
  startCalls : Nat
deriving Repr, DecidableEq

/-- Result of one loop round: either the next state, or an unhandled
exception escaping `main` (the `RuntimeError` raised when
`loop.run_until_complete` / task scheduling runs on a closed event loop). -/
inductive RoundResult where
  | ok : LoopState → RoundResult
  | crashed : String → RoundResult
deriving Repr, DecidableEq

/-- One iteration of `main`'s `while True` body: resolve, aggregate + log on
change, filter stopped instances, and — only if any are stopped — run the
dispatch round on the thread's default event loop and close it.
`asyncio.get_event_loop()` returns the already-closed loop once a previous
round closed it, and running tasks on it raises. -/
def loopRound (strat : Strategy) (gw : Gateway) (s : LoopState) : RoundResult :=
  let r := resolve strat gw s.workingList
  let logRes := prep_and_log_statistics (r.2.map Prod.snd) s.lastStatusStats
  let stoppedInstances := (r.2.map Prod.snd).filter (fun i => i.stopped)
  if stoppedInstances.isEmpty then
    RoundResult.ok
      { workingList := r.1
        lastStatusStats := logRes.2
        eventLoopClosed := s.eventLoopClosed
        statLogs := s.statLogs + (if logRes.1 then 1 else 0)
        startCalls := s.startCalls }
  else if s.eventLoopClosed then
    RoundResult.crashed "Event loop is closed"
  else
    RoundResult.ok
      { workingList := r.1
        lastStatusStats := logRes.2
        eventLoopClosed := true
        statLogs := s.statLogs + (if logRes.1 then 1 else 0)
        startCalls := s.startCalls +
          ((prepare_start_tasks gw stoppedInstances).map Prod.snd).sum }

/-- `n` consecutive loop rounds from a given state; round `k` (1-based) talks
to the gateway `gws k`, so gateway responses may change between rounds. -/
def iterRounds (strat : Strategy) (gws : Nat → Gateway) (s0 : LoopState) :
    Nat → RoundResult
  | 0 => RoundResult.ok s0
  | n + 1 =>
      match iterRounds strat gws s0 n with
      | RoundResult.ok s => loopRound strat (gws (n + 1)) s
      | RoundResult.crashed msg => RoundResult.crashed msg

/-- Observable process state of `main` after a number of loop rounds. -/
inductive ProcState where
  | running : LoopState → Nat → ProcState
  | exited : Nat → ProcState
  | crashed : String → ProcState
deriving Repr, DecidableEq

/-- `main()` as a trace: the initial resolution uses `gws 0`; an empty
initial TargetSet is `sys.exit(0)`; otherwise `mainTrace n` is the process
state after `n` loop rounds (round `k` uses `gws k`). -/
def mainTrace (strat : Strategy) (gws : Nat → Gateway) (initList : List String)
    (n : Nat) : ProcState :=
  let r0 := resolve strat (gws 0) initList
  if r0.2.isEmpty then
    ProcState.exited 0
  else
    match iterRounds strat gws
        { workingList := r0.1, lastStatusStats := "", eventLoopClosed := false,
          statLogs := 0, startCalls := 0 } n with
    | RoundResult.ok s => ProcState.running s n
    | RoundResult.crashed msg => ProcState.crashed msg

/-- The ExplicitList working list (`config.instances`) after `n` loop rounds:
round `k` mutates it through `get_instances_from_config` against gateway
`gws k` (round 0 is the state before the first loop round). -/
def workingListAfter (gws : Nat → Gateway) (l0 : List String) : Nat → List String
  | 0 => l0
  | n + 1 => (get_instances_from_config (gws (n + 1)) (workingListAfter gws l0 n)).1

/-! ### Concrete fixtures used to evaluate the embedding at specific inputs -/

/-- A preemptible instance reported `RUNNING`. -/
def instRun : Instance := ⟨"r1", "vm-r1", "RUNNING", true, []⟩

/-- A preemptible instance reported `STOPPED`. -/
def instStop : Instance := ⟨"s1", "vm-s1", "STOPPED", true, []⟩

/-- A preemptible running instance with id `b`. -/
def instB : Instance := ⟨"b", "vm-b", "RUNNING", true, []⟩

/-- Stopped preemptible instances with ids `a`, `b`, `c`. -/
def instStopA : Instance := ⟨"a", "vm-a", "STOPPED", true, []⟩

def instStopB : Instance := ⟨"b", "vm-b", "STOPPED", true, []⟩

def instStopC : Instance := ⟨"c", "vm-c", "STOPPED", true, []⟩

/-- A gateway that knows only instance `b`; fetching any other identifier
raises (`Except.error`). -/
def gwSkipDemo : Gateway :=
  ⟨fun s => if s == "b" then Except.ok instB else Except.error "Instance not found",
   fun _ => [], fun _ => Except.ok ()⟩

/-- A gateway whose folder listing always contains one stopped preemptible
instance and whose start calls always succeed. -/
def gwAlwaysStopped : Gateway :=
  ⟨fun _ => Except.error "unused", fun _ => [instStop], fun _ => Except.ok ()⟩

/-- A gateway for which every fetch fails and the folder listing is empty. -/
def gwErr : Gateway :=
  ⟨fun _ => Except.error "Instance not found", fun _ => [], fun _ => Except.ok ()⟩

/-- Round-indexed gateways: the initial resolution sees a non-empty folder,
every later round's folder listing is empty. -/
def gwsShrink : Nat → Gateway := fun k => if k = 0 then gwAlwaysStopped else gwErr

/-- The constant round-indexed gateway family over `gwSkipDemo`. -/
def gwsSkip : Nat → Gateway := fun _ => gwSkipDemo

/-- The constant round-indexed gateway family over `gwAlwaysStopped`. -/
def gwsStopped : Nat → Gateway := fun _ => gwAlwaysStopped

/-- A gateway whose start call fails exactly for instance id `b`. -/
def gwMixedStart : Gateway :=
  ⟨fun _ => Except.error "unused", fun _ => [],
   fun s => if s == "b" then Except.error "boom" else Except.ok ()⟩

/-- A LabelQuery strategy with no label-value filter configured. -/
def stratLQ : Strategy := Strategy.labelQuery "folder1" "automation" none none

/-! ### Helper lemmas -/

theorem mem_dictInsert {α : Type} {p : String × α} {k : String} {v : α} :
    ∀ {d : List (String × α)}, p ∈ dictInsert k v d → p = (k, v) ∨ p ∈ d := by
  intro d
  induction d with
  | nil => simp [dictInsert]
  | cons q rest ih =>
      simp only [dictInsert]
      split
      · intro h
        rcases List.mem_cons.mp h with h1 | h1
        · exact Or.inl h1
        · exact Or.inr (List.mem_cons_of_mem _ h1)
      · intro h
        rcases List.mem_cons.mp h with h1 | h1
        · exact Or.inr (h1 ▸ List.mem_cons_self _ _)
        · rcases ih h1 with h2 | h2
          · exact Or.inl h2
          · exact Or.inr (List.mem_cons_of_mem _ h2)

theorem mem_foldl_dictInsert {α : Type} :
    ∀ (l : List (String × α)) (d0 : List (String × α)) (p : String × α),
      p ∈ l.foldl (fun d q => dictInsert q.1 q.2 d) d0 → p ∈ d0 ∨ p ∈ l := by
  intro l
  induction l with
  | nil => intro d0 p h; exact Or.inl h
  | cons q rest ih =>
      intro d0 p h
      rcases ih (dictInsert q.1 q.2 d0) p h with h1 | h1
      · rcases mem_dictInsert h1 with h2 | h2
        · exact Or.inr (h2 ▸ List.mem_cons_self _ _)
        · exact Or.inl h2
      · exact Or.inr (List.mem_cons_of_mem _ h1)

theorem mem_pyDictOfPairs {α : Type} {l : List (String × α)} {p : String × α}
    (h : p ∈ pyDictOfPairs l) : p ∈ l := by
  rcases mem_foldl_dictInsert l [] p h with h1 | h1
  · cases h1
  · exact h1

theorem applyLabelFilter_subset (labelName : String) (goValue noGoValue : Option String)
    (l : List Instance) : applyLabelFilter labelName goValue noGoValue l ⊆ l := by
  unfold applyLabelFilter
  split
  · exact List.filter_subset' l
  · split
    · exact List.filter_subset' l
    · exact fun _ h => h

theorem getFromConfigGo_fst_subset (gw : Gateway) :
    ∀ (lst : List String) (i : Nat) (acc : List (String × Instance)),
      (getFromConfigGo gw lst i acc).1 ⊆ lst := by
  intro lst i acc
  induction lst, i, acc using getFromConfigGo.induct gw with
  | case1 lst i acc h inst hfetch hpre ih =>
      rw [getFromConfigGo, dif_pos h, hfetch]
      simpa [hpre] using ih
  | case2 lst i acc h inst hfetch hpre ih =>
      rw [getFromConfigGo, dif_pos h, hfetch]
      simp only [hpre, if_false, Bool.false_eq_true]
      exact fun x hx => List.eraseIdx_subset _ _ (ih hx)
  | case3 lst i acc h e hfetch ih =>
      rw [getFromConfigGo, dif_pos h, hfetch]
      exact fun x hx => List.eraseIdx_subset _ _ (ih hx)
  | case4 lst i acc h =>
      rw [getFromConfigGo, dif_neg h]
      exact fun x hx => hx

theorem getFromConfigGo_snd_mem (gw : Gateway)
    (hid : ∀ (s : String) (inst : Instance), gw.fetch s = Except.ok inst → inst.id = s) :
    ∀ (lst : List String) (i : Nat) (acc : List (String × Instance))
      (k : String) (v : Instance),
      (k, v) ∈ (getFromConfigGo gw lst i acc).2 → (k, v) ∈ acc ∨ k ∈ lst := by
  intro lst i acc
  induction lst, i, acc using getFromConfigGo.induct gw with
  | case1 lst i acc h inst hfetch hpre ih =>
      intro k v hmem
      rw [getFromConfigGo, dif_pos h, hfetch] at hmem
      simp only [hpre, if_true] at hmem
      rcases ih k v hmem with h1 | h1
      · rcases mem_dictInsert h1 with h2 | h2
        · have hk : k = inst.id := congrArg Prod.fst h2
          refine Or.inr ?_
          rw [hk, hid _ _ hfetch]
          exact List.get_mem lst i h
        · exact Or.inl h2
      · exact Or.inr h1
  | case2 lst i acc h inst hfetch hpre ih =>
      intro k v hmem
      rw [getFromConfigGo, dif_pos h, hfetch] at hmem
      simp only [hpre, if_false, Bool.false_eq_true] at hmem
      rcases ih k v hmem with h1 | h1
      · exact Or.inl h1
      · exact Or.inr (List.eraseIdx_subset _ _ h1)
  | case3 lst i acc h e hfetch ih =>
      intro k v hmem
      rw [getFromConfigGo, dif_pos h, hfetch] at hmem
      rcases ih k v hmem with h1 | h1
      · exact Or.inl h1
      · exact Or.inr (List.eraseIdx_subset _ _ h1)
  | case4 lst i acc h =>
      intro k v hmem
      rw [getFromConfigGo, dif_neg h] at hmem
      exact Or.inl hmem

theorem getFromConfigGo_snd_preempt (gw : Gateway) :
    ∀ (lst : List String) (i : Nat) (acc : List (String × Instance)),
      (∀ p ∈ acc, p.2.preemptible = true) →
      ∀ p ∈ (getFromConfigGo gw lst i acc).2, p.2.preemptible = true := by
  intro lst i acc
  induction lst, i, acc using getFromConfigGo.induct gw with
  | case1 lst i acc h inst hfetch hpre ih =>
      intro hacc p hmem
      rw [getFromConfigGo, dif_pos h, hfetch] at hmem
      simp only [hpre, if_true] at hmem
      refine ih ?_ p hmem
      intro q hq
      rcases mem_dictInsert hq with h2 | h2
      · rw [h2]
        exact hpre
      · exact hacc q h2
  | case2 lst i acc h inst hfetch hpre ih =>
      intro hacc p hmem
      rw [getFromConfigGo, dif_pos h, hfetch] at hmem
      simp only [hpre, if_false, Bool.false_eq_true] at hmem
      exact ih hacc p hmem
  | case3 lst i acc h e hfetch ih =>
      intro hacc p hmem
      rw [getFromConfigGo, dif_pos h, hfetch] at hmem
      exact ih hacc p hmem
  | case4 lst i acc h =>
      intro hacc p hmem
      rw [getFromConfigGo, dif_neg h] at hmem
      exact hacc p hmem

theorem pyStrDict_ne_empty (d : List (String × Nat)) : pyStrDict d ≠ "" := by
  intro h
  have h2 := congrArg String.length h
  rw [pyStrDict, String.length_append, String.length_append] at h2
  have e1 : ("\x7b" : String).length = 1 := rfl
  have e2 : ("\x7d" : String).length = 1 := rfl
  have e3 : ("" : String).length = 0 := rfl
  rw [e1, e2, e3] at h2
  omega

theorem eval_config_b :
    get_instances_from_config gwSkipDemo ["b"] = (["b"], [("b", instB)]) := by
  simp [get_instances_from_config, getFromConfigGo, gwSkipDemo, dictInsert, instB]

theorem eval_config_ab :
    get_instances_from_config gwSkipDemo ["a", "b"] = (["b"], []) := by
  simp [get_instances_from_config, getFromConfigGo, gwSkipDemo, dictInsert, instB]

/-! ### Claim theorems -/

/-- C4: every member of a TargetSet produced by either selection strategy
(`get_instances_from_config` or `get_instances_from_yc_folder`) has
`preemptible = true`; a non-preemptible instance is never a member. -/
theorem C4_targetset_members_preemptible :
    (∀ (gw : Gateway) (l : List String) (p : String × Instance),
        p ∈ (get_instances_from_config gw l).2 → p.2.preemptible = true)
    ∧ (∀ (gw : Gateway) (folderId labelName : String) (goValue noGoValue : Option String)
        (p : String × Instance),
        p ∈ get_instances_from_yc_folder gw folderId labelName goValue noGoValue →
        p.2.preemptible = true) := by
  constructor
  · intro gw l p hmem
    exact getFromConfigGo_snd_preempt gw l 0 [] (by intro q hq; cases hq) p hmem
  · intro gw folderId labelName goValue noGoValue p hmem
    have h1 := mem_pyDictOfPairs hmem
    rcases List.mem_map.mp h1 with ⟨inst, hin, hp⟩
    have h2 := applyLabelFilter_subset labelName goValue noGoValue _ hin
    have h3 := (List.mem_filter.mp h2).2
    rw [← hp]
    exact h3

/-- Witness for C4: the TargetSet resolved from `gwSkipDemo` over `["b"]`
contains `("b", instB)`, and the theorem yields its preemptibility. -/
theorem C4_targetset_members_preemptible_witness : instB.preemptible = true :=
  C4_targetset_members_preemptible.1 gwSkipDemo ["b"] ("b", instB)
    (by rw [eval_config_b]; exact List.mem_cons_self _ _)

/-- C5: LabelQuery precedence — with a configured (non-empty) go value `X`,
the resolved TargetSet is independent of the no-go value; with neither value
configured, the TargetSet is exactly the preemptible instances of the scope
listing, keyed by id. -/
theorem C5_label_go_value_precedence :
    (∀ (gw : Gateway) (folderId labelName X : String) (noGoValue : Option String),
        X ≠ "" →
        get_instances_from_yc_folder gw folderId labelName (some X) noGoValue =
          get_instances_from_yc_folder gw folderId labelName (some X) none)
    ∧ (∀ (gw : Gateway) (folderId labelName : String),
        get_instances_from_yc_folder gw folderId labelName none none =
          pyDictOfPairs
            (((gw.listInFolder folderId).filter (fun i => i.preemptible)).map
              (fun i => (i.id, i)))) := by
  constructor
  · intro gw folderId labelName X noGoValue hX
    have ht : strTruthy (some X) = true := by
      simp [strTruthy, hX]
    simp [get_instances_from_yc_folder, applyLabelFilter, ht]
  · intro gw folderId labelName
    rfl

/-- Witness for C5: with go value `"x"` configured, the no-go value `"y"` is
ignored by `gwAlwaysStopped`'s folder resolution. -/
theorem C5_label_go_value_precedence_witness :
    get_instances_from_yc_folder gwAlwaysStopped "folder1" "automation"
        (some "x") (some "y") =
      get_instances_from_yc_folder gwAlwaysStopped "folder1" "automation"
        (some "x") none :=
  C5_label_go_value_precedence.1 gwAlwaysStopped "folder1" "automation" "x"
    (some "y") (by decide)

/-- C6: dispatch failure isolation — dispatching distributes over the input
sequence (a failure never aborts sibling dispatches), every input instance
gets its own outcome (the round completes), a stopped instance causes exactly
one start command (no retry within the iteration), and for three stopped
instances whose middle start call fails the outcomes are
`[Started, Failed r, Started]`. -/
theorem C6_dispatch_failure_isolation :
    (∀ (gw : Gateway) (l1 l2 : List Instance),
        prepare_start_tasks gw (l1 ++ l2) =
          prepare_start_tasks gw l1 ++ prepare_start_tasks gw l2)
    ∧ (∀ (gw : Gateway) (l : List Instance),
        (prepare_start_tasks gw l).length = l.length)
    ∧ (∀ (gw : Gateway) (inst : Instance),
        inst.stopped = true → (start_instance gw inst).2 = 1)
    ∧ (∀ (gw : Gateway) (a b c : Instance) (r : String),
        a.stopped = true → b.stopped = true → c.stopped = true →
        gw.startResult a.id = Except.ok () →
        gw.startResult b.id = Except.error r →
        gw.startResult c.id = Except.ok () →
        (prepare_start_tasks gw [a, b, c]).map Prod.fst =
          [RemediationOutcome.Started, RemediationOutcome.Failed r,
            RemediationOutcome.Started]) := by
  refine ⟨?_, ?_, ?_, ?_⟩
  · intro gw l1 l2
    exact List.map_append _ l1 l2
  · intro gw l
    exact List.length_map l _
  · intro gw inst hs
    simp only [start_instance, hs, if_true]
    cases gw.startResult inst.id <;> rfl
  · intro gw a b c r ha hb hc hra hrb hrc
    simp [prepare_start_tasks, start_instance, ha, hb, hc, hra, hrb, hrc]

/-- Witness for C6: three stopped instances against `gwMixedStart` (whose
start call fails exactly for id `b`) yield `[Started, Failed "boom",
Started]`. -/
theorem C6_dispatch_failure_isolation_witness :
    (prepare_start_tasks gwMixedStart [instStopA, instStopB, instStopC]).map
        Prod.fst =
      [RemediationOutcome.Started, RemediationOutcome.Failed "boom",
        RemediationOutcome.Started] :=
  C6_dispatch_failure_isolation.2.2.2 gwMixedStart instStopA instStopB instStopC
    "boom" rfl rfl rfl rfl rfl rfl

/-- C8: calling `prep_and_log_statistics` twice in succession with the same
snapshot, starting from the initial empty retained state `""`, logs exactly
once: the first call always logs (the serialized dict is never the empty
string), the identical second call never does. -/
theorem C8_log_once_and_first_snapshot_logged :
    ∀ (insts : List Instance),
      (prep_and_log_statistics insts "").1 = true
      ∧ (prep_and_log_statistics insts
          ((prep_and_log_statistics insts "").2)).1 = false := by
  intro insts
  have hne : pyStrDict (buildStatusDict insts) ≠ "" :=
    pyStrDict_ne_empty (buildStatusDict insts)
  constructor
  · simp [prep_and_log_statistics, hne]
  · simp [prep_and_log_statistics, hne]

/-- C2 (evaluation at the failing input): with working list `["a", "b"]`
where fetching `a` raises and `b` is a valid preemptible instance, the
round's cursor/pop interaction skips `b` entirely — `b` stays in the working
list but the returned TargetSet is empty, although the claim requires every
identifier present at the start of the round to be fetched and `b` to
survive into the TargetSet. -/
theorem C2_drop_skips_next_identifier :
    gwSkipDemo.fetch "b" = Except.ok instB
    ∧ instB.preemptible = true
    ∧ get_instances_from_config gwSkipDemo ["a", "b"] = (["b"], []) :=
  ⟨rfl, rfl, eval_config_ab⟩

/-- C3 counterexample: the two snapshots built from `[instRun, instStop]`
and `[instStop, instRun]` have equal status-to-count content (they are
permutations of each other), yet after logging the first, the second is
logged again — `prep_and_log_statistics` compares insertion-ordered
serializations, so accumulation order matters. -/
theorem C3_order_sensitivity_counterexample :
    (buildStatusDict [instRun, instStop]).Perm (buildStatusDict [instStop, instRun])
    ∧ (prep_and_log_statistics [instStop, instRun]
        ((prep_and_log_statistics [instRun, instStop] "").2)).1 = true := by
  constructor
  · decide
  · decide

/-- C3 amended: snapshot equality used by the logger is equality of the
insertion-ordered serialized dict — two snapshots whose status dicts are
equal as ordered dicts (in particular, accumulated in the same order) are
treated as equal and the second emits no new log line. -/
theorem C3_equal_serialization_not_relogged :
    ∀ (insts1 insts2 : List Instance) (last : String),
      buildStatusDict insts1 = buildStatusDict insts2 →
      (prep_and_log_statistics insts2
          ((prep_and_log_statistics insts1 last).2)).1 = false := by
  intro insts1 insts2 last h
  by_cases hc : pyStrDict (buildStatusDict insts2) = last
  · simp [prep_and_log_statistics, h, hc]
  · simp [prep_and_log_statistics, h, hc]

/-- Witness for C3 amended: logging the snapshot of `[instRun]` twice from
retained state `"x"` logs only the first time. -/
theorem C3_equal_serialization_not_relogged_witness :
    (prep_and_log_statistics [instRun]
        ((prep_and_log_statistics [instRun] "x").2)).1 = false :=
  C3_equal_serialization_not_relogged [instRun] [instRun] "x" rfl

/-- C9: if the very first resolution yields an empty TargetSet, `main` exits
cleanly with code 0 and the process never reaches any loop round — the trace
equals `exited 0` after every number of rounds, so no statistics log and no
dispatch ever happens. -/
theorem C9_empty_initial_resolution_exits_clean :
    ∀ (strat : Strategy) (gws : Nat → Gateway) (initList : List String),
      (resolve strat (gws 0) initList).2 = [] →
      ∀ n : Nat, mainTrace strat gws initList n = ProcState.exited 0 := by
  intro strat gws initList h n
  simp [mainTrace, h]

/-- Witness for C9: a LabelQuery over an empty folder exits cleanly. -/
theorem C9_empty_initial_resolution_exits_clean_witness :
    mainTrace stratLQ (fun _ => gwErr) [] 5 = ProcState.exited 0 :=
  C9_empty_initial_resolution_exits_clean stratLQ (fun _ => gwErr) [] rfl 5

theorem mainTrace_succ_of_running (strat : Strategy) (gws : Nat → Gateway)
    (initList : List String) (n : Nat) (s : LoopState)
    (h : mainTrace strat gws initList n = ProcState.running s n) :
    mainTrace strat gws initList (n + 1) =
      match loopRound strat (gws (n + 1)) s with
      | RoundResult.ok s' => ProcState.running s' (n + 1)
      | RoundResult.crashed msg => ProcState.crashed msg := by
  simp only [mainTrace] at h ⊢
  by_cases h0 : (resolve strat (gws 0) initList).2.isEmpty = true
  · rw [if_pos h0] at h
    cases h
  · rw [if_neg h0] at h ⊢
    cases hit : iterRounds strat gws
        { workingList := (resolve strat (gws 0) initList).1, lastStatusStats := "",
          eventLoopClosed := false, statLogs := 0, startCalls := 0 } n with
    | ok s'' =>
        rw [hit] at h
        simp only [ProcState.running.injEq] at h
        rw [show s'' = s from h.1] at hit
        simp [iterRounds, hit]
    | crashed msg =>
        rw [hit] at h
        cases h

/-- C10: the clean-exit-on-empty check applies only to the initial
resolution — any later round that resolves an empty TargetSet does not
terminate: the round completes (`running`, not `exited`/`crashed`), issues no
start calls, updates the retained statistics exactly as
`prep_and_log_statistics` on the empty snapshot dictates, and the loop
proceeds to the next round. -/
theorem C10_empty_later_round_does_not_terminate :
    ∀ (strat : Strategy) (gws : Nat → Gateway) (initList : List String)
      (n : Nat) (s : LoopState),
      mainTrace strat gws initList n = ProcState.running s n →
      (resolve strat (gws (n + 1)) s.workingList).2 = [] →
      mainTrace strat gws initList (n + 1) =
        ProcState.running
          { workingList := (resolve strat (gws (n + 1)) s.workingList).1
            lastStatusStats := (prep_and_log_statistics [] s.lastStatusStats).2
            eventLoopClosed := s.eventLoopClosed
            statLogs := s.statLogs +
              (if (prep_and_log_statistics [] s.lastStatusStats).1 then 1 else 0)
            startCalls := s.startCalls } (n + 1) := by
  intro strat gws initList n s h hres
  rw [mainTrace_succ_of_running strat gws initList n s h]
  simp [loopRound, hres]

/-- Witness for C10: with a non-empty initial folder listing and an empty
listing from round 1 on, round 1 resolves an empty TargetSet, logs the changed
(now empty) statistics, issues no start call, and the process keeps running. -/
theorem C10_empty_later_round_does_not_terminate_witness :
    mainTrace stratLQ gwsShrink [] 1 =
      ProcState.running ⟨[], "\x7b\x7d", false, 1, 0⟩ 1 :=
  (C10_empty_later_round_does_not_terminate stratLQ gwsShrink [] 0
      ⟨[], "", false, 0, 0⟩ (by decide) rfl).trans (by decide)

/-- C7: ExplicitList monotonicity — when, over the gateways of a process
lifetime, fetched instances carry the identifier they were fetched by, an
identifier dropped from the working list during some round is absent from the
working list and from the resolved TargetSet of every later round. -/
theorem C7_dropped_identifier_never_returns :
    ∀ (gws : Nat → Gateway) (l0 : List String) (id : String) (k : Nat),
      (∀ (n : Nat) (s : String) (inst : Instance),
          (gws n).fetch s = Except.ok inst → inst.id = s) →
      id ∈ workingListAfter gws l0 k →
      id ∉ workingListAfter gws l0 (k + 1) →
      ∀ m : Nat, k + 1 ≤ m →
        id ∉ workingListAfter gws l0 m
        ∧ ∀ inst : Instance,
            (id, inst) ∉
              (get_instances_from_config (gws (m + 1)) (workingListAfter gws l0 m)).2 := by
  intro gws l0 id k hid _hmem hdrop m hm
  have habs : ∀ j : Nat, k + 1 ≤ j → id ∉ workingListAfter gws l0 j := by
    intro j
    induction j with
    | zero => omega
    | succ j ih =>
        intro hj
        by_cases hj' : k + 1 ≤ j
        · intro hcon
          exact ih hj'
            (getFromConfigGo_fst_subset (gws (j + 1)) (workingListAfter gws l0 j) 0 [] hcon)
        · have hjk : j = k := by omega
          subst hjk
          exact hdrop
  refine ⟨habs m hm, ?_⟩
  intro inst hcon
  rcases getFromConfigGo_snd_mem (gws (m + 1)) (hid (m + 1))
      (workingListAfter gws l0 m) 0 [] id inst hcon with h1 | h1
  · cases h1
  · exact habs m hm h1

/-- Witness for C7: identifier `a` is dropped in round 1 (its fetch fails) and
is absent from the working list after round 1 and from round 2's TargetSet. -/
theorem C7_dropped_identifier_never_returns_witness :
    "a" ∉ workingListAfter gwsSkip ["a", "b"] 1
    ∧ ∀ inst : Instance,
        ("a", inst) ∉
          (get_instances_from_config (gwsSkip 2) (workingListAfter gwsSkip ["a", "b"] 1)).2 :=
  C7_dropped_identifier_never_returns gwsSkip ["a", "b"] "a" 0
    (by
      intro n s inst h
      by_cases hb : s = "b"
      · subst hb
        simp only [gwsSkip, gwSkipDemo, beq_self_eq_true, if_true, Except.ok.injEq] at h
        rw [← h]
        rfl
      · simp [gwsSkip, gwSkipDemo, hb] at h)
    (by decide)
    (by
      have h1 : workingListAfter gwsSkip ["a", "b"] 1 = ["b"] := by
        simp [workingListAfter, gwsSkip, eval_config_ab]
      rw [h1]
      decide)
    1 (le_refl 1)

/-- C1 (evaluation at the failing input): with a stopped instance resolved in
rounds 1 and 2 and start calls that succeed, round 1 completes (and closes the
asyncio event loop), and round 2's dispatch crashes with an unhandled
`RuntimeError` instead of proceeding — the loop does not run indefinitely when
two rounds dispatch start tasks. -/
theorem C1_second_dispatch_round_crashes :
    mainTrace stratLQ gwsStopped [] 1 =
      ProcState.running ⟨[], "\x7b'STOPPED': 1\x7d", true, 1, 1⟩ 1
    ∧ mainTrace stratLQ gwsStopped [] 2 =
      ProcState.crashed "Event loop is closed" := by
  constructor
  · decide
  · decide

end Watchdog
